import Mathlib

/-!
Shallow embedding of `verify-static-linking.py` (static-linking verification
tool): data model, the per-platform output parsers, the policy evaluation and
the reporter's exit-code mapping, together with theorems settling the frozen
claims about them.

Strings coming from the inspected tool outputs are modelled as Lean `String`s
and the Python string operations the code uses (`strip`, `split`,
`splitlines`, `startswith`, `endswith`, `in`, `lower`) are given structural
definitions over the underlying character lists so that every definition
evaluates inside the kernel.
-/

namespace StaticLinking

/-- The `Status` enum of the tool: SUCCESS ("✓"), WARNING ("⚠"), ERROR ("✗"). -/
inductive Status where
  | SUCCESS
  | WARNING
  | ERROR
deriving DecidableEq, Repr

/-- The `Dependency` dataclass: a dependency record with a name, an optional
path and a system-classification flag. -/
structure Dependency where
  name : String
  path : Option String
  is_system : Bool
deriving DecidableEq, Repr

/-- The `VerificationResult` dataclass. -/
structure VerificationResult where
  status : Status
  platform : String
  binary : String
  dependencies : List Dependency
  message : String
  details : List String
deriving DecidableEq, Repr

/-! ## Python string primitives, modelled structurally over character lists -/

/-- Whitespace test used by Python's `strip`/`split` (ASCII whitespace). -/
def isWs (c : Char) : Bool := c.isWhitespace

/-- Drop leading and trailing whitespace characters from a character list. -/
def pyStripList (l : List Char) : List Char :=
  ((l.dropWhile isWs).reverse.dropWhile isWs).reverse

/-- Python `str.strip()`. -/
def pyStrip (s : String) : String := String.mk (pyStripList s.data)

/-- Split a character list at every occurrence of the character `sep`,
keeping empty segments (Python `str.split(sep)` for a one-character
separator). `cur` is the reversed current segment. -/
def splitChar (sep : Char) : List Char → List Char → List (List Char)
  | [], cur => [cur.reverse]
  | c :: cs, cur =>
    if c = sep then cur.reverse :: splitChar sep cs []
    else splitChar sep cs (c :: cur)

/-- Python `str.splitlines()` for newline-separated text: split at `'\n'`
and drop the one trailing empty segment a terminating newline produces. -/
def pySplitlines (s : String) : List String :=
  let parts := splitChar '\n' s.data []
  let parts := if parts.getLast? = some [] then parts.dropLast else parts
  parts.map String.mk

/-- Tokens of a character list split on runs of whitespace, dropping empty
tokens (Python `str.split()` with no argument). `cur` is the reversed
current token. -/
def wsTokens : List Char → List Char → List (List Char)
  | [], cur => if cur = [] then [] else [cur.reverse]
  | c :: cs, cur =>
    if isWs c then
      (if cur = [] then wsTokens cs [] else cur.reverse :: wsTokens cs [])
    else wsTokens cs (c :: cur)

/-- Python `str.split()` (no argument): whitespace-delimited tokens. -/
def pySplitWs (s : String) : List String := (wsTokens s.data []).map String.mk

/-- Split a character list at every non-overlapping occurrence of the
two-character separator `"=>"`, scanning left to right
(Python `str.split("=>")`). -/
def splitArrow : List Char → List Char → List (List Char)
  | [], cur => [cur.reverse]
  | '=' :: '>' :: cs, cur => cur.reverse :: splitArrow cs []
  | c :: cs, cur => splitArrow cs (c :: cur)

/-- Python `str.split("=>")`. -/
def pySplitArrow (s : String) : List String := (splitArrow s.data []).map String.mk

/-- Boolean substring containment on character lists: `needle` occurs
contiguously inside `hay`. -/
def listContains : List Char → List Char → Bool
  | needle, [] => needle.isEmpty
  | needle, h :: t => needle.isPrefixOf (h :: t) || listContains needle t

/-- Python `needle in hay` on strings: substring containment. -/
def strContains (needle hay : String) : Bool := listContains needle.data hay.data

/-- Python `s.startswith(pre)`. -/
def pyStartsWith (pre s : String) : Bool := pre.data.isPrefixOf s.data

/-- Python `s.endswith(suf)`. -/
def pyEndsWith (suf s : String) : Bool := suf.data.isSuffixOf s.data

/-- Python `str.lower()` restricted to ASCII letters, which is all the tool
compares (DLL base names). -/
def pyLower (s : String) : String := String.mk (s.data.map Char.toLower)

/-- Last nonempty `/`-separated component of a path string: models
`pathlib.Path(p).name` for the tool-output paths at hand (which contain no
`.` or `..` components). -/
def pathBasename (s : String) : String :=
  String.mk (((splitChar '/' s.data []).filter (fun c => c ≠ [])).getLastD [])

/-- All-or-nothing traversal of a list under a fallible per-element parse:
`none` models the Python loop raising on the first failing element. -/
def mapOpt {α β : Type} (f : α → Option β) : List α → Option (List β)
  | [] => some []
  | a :: as =>
    match f a, mapOpt f as with
    | some b, some bs => some (b :: bs)
    | _, _ => none

/-! ## Linux verification (`_verify_linux`) -/

/-- The path fragments that classify an `ldd` dependency as a system
library. -/
def linuxSystemMarkers : List String := ["/lib/", "/usr/lib/", "linux-vdso", "ld-linux"]

/-- One iteration of the `ldd` parse loop: a stripped line containing `"=>"`
yields a `Dependency` whose name is the stripped left part, whose path is the
first whitespace token of the stripped right part (absent when that part is
empty), and which is system-classified when the path is set and contains one
of the system path fragments; other lines yield nothing. -/
def linuxDepOfLine (rawLine : String) : Option Dependency :=
  let line := pyStrip rawLine
  if strContains "=>" line then
    let parts := pySplitArrow line
    let lib_name := pyStrip (parts.headD "")
    let p1 := pyStrip (parts.getD 1 "")
    let lib_path : Option String := if p1 ≠ "" then some ((pySplitWs p1).headD "") else none
    let is_system :=
      match lib_path with
      | some lp => lp ≠ "" && linuxSystemMarkers.any (fun m => strContains m lp)
      | none => false
    some { name := lib_name, path := lib_path, is_system := is_system }
  else none

/-- The dependency list `_verify_linux` parses out of the combined
stdout+stderr `ldd` output. -/
def parseLinuxDeps (output : String) : List Dependency :=
  (pySplitlines output).filterMap linuxDepOfLine

/-- The fixed result `_verify_linux` returns as soon as the output contains
the static-executable marker, before any line parsing. -/
def fullyStaticLinuxResult (binary : String) : VerificationResult :=
  { status := Status.SUCCESS
    platform := "Linux"
    binary := binary
    dependencies := []
    message := "Fully static binary (no dynamic dependencies)"
    details := ["Binary is completely static", "No shared libraries linked"] }

/-- Evaluation of a parsed Linux dependency list (the tail of
`_verify_linux` after parsing). -/
def evalLinux (binary : String) (strict : Bool) (deps : List Dependency) : VerificationResult :=
  if deps.isEmpty then
    { status := Status.SUCCESS
      platform := "Linux"
      binary := binary
      dependencies := []
      message := "Fully static binary"
      details := ["No dynamic dependencies found"] }
  else
    let nonSystemDeps := deps.filter (fun d => !d.is_system)
    if nonSystemDeps.isEmpty then
      { status := if strict then Status.WARNING else Status.SUCCESS
        platform := "Linux"
        binary := binary
        dependencies := deps
        message := if strict then "Not fully static" else "Mostly static (only system libs)"
        details := ["System dependencies: " ++ toString deps.length,
                    "All dependencies are system libraries"] }
    else
      { status := Status.ERROR
        platform := "Linux"
        binary := binary
        dependencies := deps
        message := "Dynamic binary with " ++ toString nonSystemDeps.length ++
          " non-system dependencies"
        details := ["Total dependencies: " ++ toString deps.length,
                    "Non-system dependencies: " ++ toString nonSystemDeps.length] }

/-- Model of `_verify_linux` on the combined `ldd` output (stdout + stderr): the
static-executable marker short-circuits to the fixed success result,
otherwise the parsed dependency list is evaluated. -/
def verifyLinuxOutput (binary : String) (strict : Bool) (output : String) : VerificationResult :=
  if strContains "not a dynamic executable" output || strContains "not a dynamic" output then
    fullyStaticLinuxResult binary
  else
    evalLinux binary strict (parseLinuxDeps output)

/-! ## macOS verification (`_verify_macos`) -/

/-- System classification of an `otool -L` library path: it must start with
`/usr/lib/` or `/System/Library/`. -/
def macosIsSystem (lib_path : String) : Bool :=
  pyStartsWith "/usr/lib/" lib_path || pyStartsWith "/System/Library/" lib_path

/-- The dependency record built from one parsed `otool -L` library path. -/
def macosDep (lib_path : String) : Dependency :=
  { name := pathBasename lib_path
    path := some lib_path
    is_system := macosIsSystem lib_path }

/-- The first whitespace token of a (stripped) `otool -L` output line;
`none` models the `IndexError` the code raises on a whitespace-only line
(`line.strip().split()[0]` with an empty token list). -/
def macosLineToken (line : String) : Option String :=
  (pySplitWs (pyStrip line)).head?

/-- Evaluation of the parsed macOS library-path list (the tail of
`_verify_macos` after parsing): the single-libSystem substring check first,
then the system-only counts, then the error case. -/
def evalMacos (binary : String) (paths : List String) : VerificationResult :=
  let deps := paths.map macosDep
  if paths.length = 1 ∧ strContains "/usr/lib/libSystem.B.dylib" (paths.headD "") = true then
    { status := Status.SUCCESS
      platform := "macOS"
      binary := binary
      dependencies := deps
      message := "Optimal static binary (only libSystem required by macOS)"
      details := ["Only system library: libSystem.B.dylib",
                  "Third-party libraries are statically linked"] }
  else
    let nonSystemDeps := deps.filter (fun d => !d.is_system)
    if nonSystemDeps.isEmpty then
      if deps.length ≤ 3 then
        { status := Status.SUCCESS
          platform := "macOS"
          binary := binary
          dependencies := deps
          message := "Good static binary (only system libs)"
          details := ["System dependencies: " ++ toString deps.length,
                      "All dependencies are system libraries"] }
      else
        { status := Status.WARNING
          platform := "macOS"
          binary := binary
          dependencies := deps
          message := "Many system dependencies (" ++ toString deps.length ++ ")"
          details := ["System dependencies: " ++ toString deps.length,
                      "Consider reviewing dependencies"] }
    else
      { status := Status.ERROR
        platform := "macOS"
        binary := binary
        dependencies := deps
        message := "Dynamic binary with " ++ toString nonSystemDeps.length ++
          " third-party dependencies"
        details := ["Total dependencies: " ++ toString deps.length,
                    "Non-system dependencies: " ++ toString nonSystemDeps.length] }

/-- Model of `_verify_macos` on the `otool -L` invocation outcome: non-zero exit code
reports an error; otherwise the stripped stdout is split into lines, a
single line means no dependencies, and otherwise every line after the first
is parsed into a library path (a whitespace-only line raising `IndexError`,
mapped by the catch-all handler to the `"Error running otool: ..."` error
result) and the path list is evaluated. The `strict` flag is accepted (it is
part of the verifier state) but never read. -/
def verifyMacosOutput (binary : String) (strict : Bool) (returncode : Int)
    (stdout stderr : String) : VerificationResult :=
  if returncode ≠ 0 then
    { status := Status.ERROR
      platform := "macOS"
      binary := binary
      dependencies := []
      message := "otool failed: " ++ stderr
      details := [] }
  else
    let lines := pySplitlines (pyStrip stdout)
    if lines.length ≤ 1 then
      { status := Status.SUCCESS
        platform := "macOS"
        binary := binary
        dependencies := []
        message := "No dependencies (unusual but valid)"
        details := [] }
    else
      match mapOpt macosLineToken (lines.drop 1) with
      | none =>
        { status := Status.ERROR
          platform := "macOS"
          binary := binary
          dependencies := []
          message := "Error running otool: list index out of range"
          details := [] }
      | some paths => evalMacos binary paths

/-! ## Windows verification (`_verify_windows`) -/

/-- The marker line after which `dumpbin /dependents` lists dependencies. -/
def winMarker : String := "Image has the following dependencies:"

/-- The lowercase fragments that classify a DLL line as a system DLL. -/
def winSystemDlls : List String := ["kernel32", "ntdll", "msvcrt", "ucrtbase"]

/-- The dependency record built from one recorded (stripped) `dumpbin`
line. -/
def winDepOfLine (line : String) : Dependency :=
  { name := line
    path := none
    is_system := winSystemDlls.any (fun d => strContains d (pyLower line)) }

/-- The line test of the `dumpbin` parse loop besides the section flag: the
stripped line is nonempty, does not start with `"Summary"` and ends in
`".dll"` (the two nested `if`s of the loop body merged into one
conjunction). -/
def winKeeps (line : String) : Bool :=
  line ≠ "" && !(pyStartsWith "Summary" line) && pyEndsWith ".dll" line

/-- One iteration of the `dumpbin` parse loop over the state
`(in_deps_section, deps)`, with `pyStrip rawLine` playing the role of the
code's stripped `line`: a marker-containing line switches the flag on and is
consumed; afterwards a line passing `winKeeps` is recorded. -/
def winStep (acc : Bool × List Dependency) (rawLine : String) : Bool × List Dependency :=
  if strContains winMarker (pyStrip rawLine) then (true, acc.2)
  else if acc.1 && winKeeps (pyStrip rawLine) then
    (acc.1, acc.2 ++ [winDepOfLine (pyStrip rawLine)])
  else acc

/-- The dependency list `_verify_windows` parses out of the `dumpbin`
stdout. -/
def parseWindowsDeps (stdout : String) : List Dependency :=
  ((pySplitlines stdout).foldl winStep (false, [])).2

/-- Evaluation of the parsed Windows dependency list (the tail of
`_verify_windows` after parsing). -/
def evalWindows (binary : String) (deps : List Dependency) : VerificationResult :=
  let nonSystemDeps := deps.filter (fun d => !d.is_system)
  if deps.isEmpty then
    { status := Status.SUCCESS
      platform := "Windows"
      binary := binary
      dependencies := []
      message := "Fully static binary (no DLL dependencies)"
      details := ["Binary is completely static"] }
  else if nonSystemDeps.isEmpty then
    { status := Status.SUCCESS
      platform := "Windows"
      binary := binary
      dependencies := deps
      message := "Static binary (only system DLLs)"
      details := ["System dependencies: " ++ toString deps.length,
                  "All dependencies are Windows system DLLs"] }
  else
    { status := Status.ERROR
      platform := "Windows"
      binary := binary
      dependencies := deps
      message := "Dynamic binary with " ++ toString nonSystemDeps.length ++
        " third-party dependencies"
      details := ["Total dependencies: " ++ toString deps.length,
                  "Non-system dependencies: " ++ toString nonSystemDeps.length] }

/-- Model of `_verify_windows` on the `dumpbin /dependents` invocation outcome: a
non-zero exit code reports an error, otherwise the parsed dependency list is
evaluated. The `strict` flag is accepted but never read. -/
def verifyWindowsOutput (binary : String) (strict : Bool) (returncode : Int)
    (stdout : String) : VerificationResult :=
  if returncode ≠ 0 then
    { status := Status.ERROR
      platform := "Windows"
      binary := binary
      dependencies := []
      message := "Could not analyze binary (dumpbin not found)"
      details := ["Install Visual Studio or use Windows SDK"] }
  else
    evalWindows binary (parseWindowsDeps stdout)

/-! ## Top-level dispatch (`verify`) and reporter exit code (`print_result`) -/

/-- Model of `StaticLinkingVerifier.verify`: the existence and regular-file checks,
then the platform dispatch. The three platform verifications are passed in
as the results they would produce, so that the theorem about a missing
binary can state that none of them influences the outcome (no external tool
is consulted). -/
def verify (pathExists isFile : Bool) (plat binary : String)
    (linuxRes macosRes windowsRes : VerificationResult) : VerificationResult :=
  if !pathExists then
    { status := Status.ERROR, platform := plat, binary := binary, dependencies := []
      message := "Binary not found: " ++ binary, details := [] }
  else if !isFile then
    { status := Status.ERROR, platform := plat, binary := binary, dependencies := []
      message := "Not a file: " ++ binary, details := [] }
  else if plat = "Linux" then linuxRes
  else if plat = "Darwin" then macosRes
  else if plat = "Windows" then windowsRes
  else
    { status := Status.ERROR, platform := plat, binary := binary, dependencies := []
      message := "Unsupported platform: " ++ plat, details := [] }

/-- The platform dispatch applied to the platform-specific verification of a
given tool outcome (Linux combines stdout and stderr, as the code does). -/
def runPlatform (plat binary : String) (strict : Bool) (rc : Int)
    (out err : String) : VerificationResult :=
  if plat = "Linux" then verifyLinuxOutput binary strict (out ++ err)
  else if plat = "Darwin" then verifyMacosOutput binary strict rc out err
  else if plat = "Windows" then verifyWindowsOutput binary strict rc out
  else
    { status := Status.ERROR, platform := plat, binary := binary, dependencies := []
      message := "Unsupported platform: " ++ plat, details := [] }

/-- The value `print_result` returns to be used as the process exit code:
computed from the result's status alone; the `verbose` flag only affects the
printed text, never the returned code. -/
def exitCode (result : VerificationResult) (verbose : Bool) : Nat :=
  if result.status = Status.SUCCESS then 0
  else if result.status = Status.WARNING then 0
  else 1

/-- The exit code as a function of the status alone (specification shape for
the purity claim about `exitCode`). -/
def exitCodeOfStatus : Status → Nat
  | Status.SUCCESS => 0
  | Status.WARNING => 0
  | Status.ERROR => 1

/-! ## Helper lemmas -/

lemma listContains_nil_left (l : List Char) : listContains [] l = true := by
  induction l with
  | nil => rfl
  | cons h t ih => simp [listContains, ih]

lemma listContains_append_left (n l₁ l₂ : List Char) (h : listContains n l₁ = true) :
    listContains n (l₁ ++ l₂) = true := by
  induction l₁ with
  | nil =>
    have hn : n = [] := by simpa [listContains, List.isEmpty_iff] using h
    subst hn
    exact listContains_nil_left l₂
  | cons a t ih =>
    simp only [listContains, Bool.or_eq_true] at h
    rcases h with hp | hc
    · have hp' : n <+: a :: t := List.isPrefixOf_iff_prefix.mp hp
      have hpp : n <+: (a :: t) ++ l₂ := hp'.trans (List.prefix_append _ _)
      simp only [List.cons_append, listContains, Bool.or_eq_true]
      left
      exact List.isPrefixOf_iff_prefix.mpr (by simpa using hpp)
    · simp only [List.cons_append, listContains, Bool.or_eq_true]
      right
      exact ih hc

lemma strContains_append_left (n l r : String) (h : strContains n l = true) :
    strContains n (l ++ r) = true := by
  unfold strContains at *
  rw [String.data_append]
  exact listContains_append_left _ _ _ h

lemma mapOpt_eq_none {α β : Type} (f : α → Option β) {xs : List α} {x : α}
    (hx : x ∈ xs) (hf : f x = none) : mapOpt f xs = none := by
  induction xs with
  | nil => cases hx
  | cons a as ih =>
    rcases List.mem_cons.mp hx with rfl | hmem
    · unfold mapOpt
      rw [hf]
    · unfold mapOpt
      rw [ih hmem]
      cases f a <;> rfl

/-! ## Claim theorems -/

/-- C3: the exit code the reporter returns is a pure function of the
result's status alone: SUCCESS yields 0, WARNING yields 0, ERROR yields 1,
for every result and every value of the verbose flag. -/
theorem C3_exit_code_pure (r : VerificationResult) (v v' : Bool) :
    exitCode r v = exitCodeOfStatus r.status ∧
    exitCode r v = exitCode r v' ∧
    exitCodeOfStatus Status.SUCCESS = 0 ∧
    exitCodeOfStatus Status.WARNING = 0 ∧
    exitCodeOfStatus Status.ERROR = 1 := by
  refine ⟨?_, rfl, rfl, rfl, rfl⟩
  cases h : r.status <;> simp [exitCode, exitCodeOfStatus, h]

/-- C9: on macOS and on Windows the strict flag does not influence the
outcome: for every tool outcome on those platforms the result produced with
strict = true is identical to the one produced with strict = false. -/
theorem C9_strict_irrelevant_macos_windows (binary : String) (rcM rcW : Int)
    (outM errM outW : String) :
    verifyMacosOutput binary true rcM outM errM = verifyMacosOutput binary false rcM outM errM ∧
    verifyWindowsOutput binary true rcW outW = verifyWindowsOutput binary false rcW outW :=
  ⟨rfl, rfl⟩

/-- C6: on macOS a parsed dependency list of exactly one entry whose path is
the canonical /usr/lib/libSystem.B.dylib yields SUCCESS with a message
containing "Optimal". -/
theorem C6_libsystem_optimal (binary : String) :
    (evalMacos binary ["/usr/lib/libSystem.B.dylib"]).status = Status.SUCCESS ∧
    strContains "Optimal" (evalMacos binary ["/usr/lib/libSystem.B.dylib"]).message = true := by
  constructor <;> rfl

/-- C8: when the binary path does not exist, verify returns ERROR with a
message containing "not found" and an empty dependency list, and the outcome
is independent of every platform verification (no external inspection tool
is consulted). -/
theorem C8_missing_binary (isFile : Bool) (plat binary : String)
    (rL rM rW rL' rM' rW' : VerificationResult) :
    (verify false isFile plat binary rL rM rW).status = Status.ERROR ∧
    strContains "not found" (verify false isFile plat binary rL rM rW).message = true ∧
    (verify false isFile plat binary rL rM rW).dependencies = [] ∧
    verify false isFile plat binary rL rM rW = verify false isFile plat binary rL' rM' rW' := by
  refine ⟨rfl, ?_, rfl, rfl⟩
  show strContains "not found" ("Binary not found: " ++ binary) = true
  exact strContains_append_left _ _ _ (by decide)

/-- An otool output whose single dependency line carries the path
/private/usr/lib/libSystem.B.dylib: the parsed entry is not
system-classified (its path does not start with /usr/lib/ or
/System/Library/), yet the substring-based libSystem check matches it. -/
def c1MacosOut : String :=
  "/tmp/app:\n\t/private/usr/lib/libSystem.B.dylib (compatibility version 1.0.0)"

/-- C1 counterexample: a macOS extractor-produced dependency list containing
a non-system entry for which the verification result is SUCCESS, not ERROR:
the single-entry libSystem substring check precedes the non-system check. -/
theorem C1_counterexample_macos_substring :
    (∃ d ∈ (verifyMacosOutput "/tmp/app" false 0 c1MacosOut "").dependencies,
      d.is_system = false) ∧
    (verifyMacosOutput "/tmp/app" false 0 c1MacosOut "").status = Status.SUCCESS := by
  decide

/-- A dumpbin output listing only KERNEL32.dll, a system DLL. -/
def c2WinOut : String :=
  "Dump of file app.exe\n\nImage has the following dependencies:\n\n    KERNEL32.dll\n\n  Summary\n"

/-- C2 counterexample: on Windows with strict = true a nonempty all-system
dependency list yields SUCCESS, not the WARNING the claim requires: the
Windows branch never consults the strict flag. -/
theorem C2_counterexample_windows_strict :
    (verifyWindowsOutput "app.exe" true 0 c2WinOut).dependencies ≠ [] ∧
    (∀ d ∈ (verifyWindowsOutput "app.exe" true 0 c2WinOut).dependencies, d.is_system = true) ∧
    (verifyWindowsOutput "app.exe" true 0 c2WinOut).status ≠ Status.WARNING := by
  decide

/-- A dumpbin output with a ".dll" line after the "Summary" line. -/
def c5WinOut : String :=
  "Image has the following dependencies:\nSummary\nevil.dll\n"

/-- C5 counterexample: the parse does not stop at the line beginning
"Summary": a ".dll" line appearing after it is still recorded, refuting the
claim that no line at or after the Summary line is recorded. -/
theorem C5_counterexample_after_summary :
    parseWindowsDeps c5WinOut = [{ name := "evil.dll", path := none, is_system := false }] := by
  decide

/-- C2 (amended): for every nonempty dependency list in which every entry is
system-classified, on Linux the status is SUCCESS when strict = false and
WARNING when strict = true, while on Windows the status is SUCCESS
regardless of strict (the Windows branch never consults the flag). -/
theorem C2_amended_all_system (binary : String) (strict : Bool) (deps : List Dependency)
    (hne : deps ≠ []) (hall : ∀ d ∈ deps, d.is_system = true) :
    (evalLinux binary strict deps).status = (if strict then Status.WARNING else Status.SUCCESS) ∧
    (evalWindows binary deps).status = Status.SUCCESS := by
  have hflt : deps.filter (fun d => !d.is_system) = [] :=
    List.filter_eq_nil_iff.mpr (fun d hd => by simp [hall d hd])
  constructor
  · unfold evalLinux
    simp [List.isEmpty_iff, hne, hflt]
  · unfold evalWindows
    simp [List.isEmpty_iff, hne, hflt]

/-- Witness for the amended C2 at a concrete all-system dependency list. -/
theorem C2_amended_all_system_witness :
    (evalLinux "b" true [{ name := "libc.so.6", path := some "/lib/libc.so.6", is_system := true }]).status
      = Status.WARNING ∧
    (evalWindows "b" [{ name := "libc.so.6", path := some "/lib/libc.so.6", is_system := true }]).status
      = Status.SUCCESS := by
  have h := C2_amended_all_system "b" true
    [{ name := "libc.so.6", path := some "/lib/libc.so.6", is_system := true }]
    (by decide) (by decide)
  simpa using h

/-- C1 (amended): for every extractor-produced dependency list containing at
least one non-system entry the verification result is ERROR and its message
reports the exact count of non-system entries, on Linux and Windows
unconditionally; on macOS this holds except when the list is exactly one
entry whose path contains "/usr/lib/libSystem.B.dylib" as a substring, in
which case the result is SUCCESS instead. -/
theorem C1_amended_nonsystem_error (binary : String) (strict : Bool)
    (deps : List Dependency) (paths : List String)
    (hdeps : ∃ d ∈ deps, d.is_system = false)
    (hpaths : ∃ p ∈ paths, macosIsSystem p = false)
    (hnotLib : ¬(paths.length = 1 ∧
      strContains "/usr/lib/libSystem.B.dylib" (paths.headD "") = true)) :
    ((evalLinux binary strict deps).status = Status.ERROR ∧
      (evalLinux binary strict deps).message =
        "Dynamic binary with " ++ toString (deps.filter (fun d => !d.is_system)).length ++
          " non-system dependencies") ∧
    ((evalWindows binary deps).status = Status.ERROR ∧
      (evalWindows binary deps).message =
        "Dynamic binary with " ++ toString (deps.filter (fun d => !d.is_system)).length ++
          " third-party dependencies") ∧
    ((evalMacos binary paths).status = Status.ERROR ∧
      (evalMacos binary paths).message =
        "Dynamic binary with " ++
          toString ((paths.map macosDep).filter (fun d => !d.is_system)).length ++
          " third-party dependencies") := by
  obtain ⟨d0, hd0, hd0s⟩ := hdeps
  have hne : deps ≠ [] := List.ne_nil_of_mem hd0
  have hflt : deps.filter (fun d => !d.is_system) ≠ [] := by
    intro hnil
    have hc := List.filter_eq_nil_iff.mp hnil d0 hd0
    simp [hd0s] at hc
  obtain ⟨p0, hp0, hp0s⟩ := hpaths
  have hfltM : (paths.map macosDep).filter (fun d => !d.is_system) ≠ [] := by
    intro hnil
    have hmem : macosDep p0 ∈ paths.map macosDep := List.mem_map_of_mem _ hp0
    have hc := List.filter_eq_nil_iff.mp hnil _ hmem
    simp [macosDep, hp0s] at hc
  refine ⟨⟨?_, ?_⟩, ⟨?_, ?_⟩, ⟨?_, ?_⟩⟩
  · unfold evalLinux
    simp [List.isEmpty_iff, hne, hflt]
  · unfold evalLinux
    simp [List.isEmpty_iff, hne, hflt]
  · unfold evalWindows
    simp [List.isEmpty_iff, hne, hflt]
  · unfold evalWindows
    simp [List.isEmpty_iff, hne, hflt]
  · unfold evalMacos
    rw [if_neg hnotLib]
    simp [List.isEmpty_iff, hfltM]
  · unfold evalMacos
    rw [if_neg hnotLib]
    simp [List.isEmpty_iff, hfltM]

/-- Witness for the amended C1 at concrete dependency lists with one
non-system entry each. -/
theorem C1_amended_nonsystem_error_witness :
    (evalLinux "b" false [{ name := "libfoo.so", path := some "/opt/libfoo.so", is_system := false }]).status
      = Status.ERROR ∧
    (evalWindows "b" [{ name := "libfoo.so", path := some "/opt/libfoo.so", is_system := false }]).status
      = Status.ERROR ∧
    (evalMacos "b" ["/opt/libbar.dylib"]).status = Status.ERROR := by
  have h := C1_amended_nonsystem_error "b" false
    [{ name := "libfoo.so", path := some "/opt/libfoo.so", is_system := false }]
    ["/opt/libbar.dylib"] (by decide) (by decide) (by decide)
  exact ⟨h.1.1, h.2.1.1, h.2.2.1⟩

/-- C4: a run in which the inspection tool reports zero dependencies yields
SUCCESS with an empty dependency list on every supported platform; on Linux
an output containing "not a dynamic executable" short-circuits to the fixed
fully-static success result, bypassing line parsing. -/
theorem C4_zero_dependencies_success (binary : String) (strict : Bool)
    (outL outM errM outW : String) :
    (strContains "not a dynamic executable" outL = true →
      verifyLinuxOutput binary strict outL = fullyStaticLinuxResult binary) ∧
    (parseLinuxDeps outL = [] →
      (verifyLinuxOutput binary strict outL).status = Status.SUCCESS ∧
      (verifyLinuxOutput binary strict outL).dependencies = []) ∧
    ((pySplitlines (pyStrip outM)).length ≤ 1 →
      (verifyMacosOutput binary strict 0 outM errM).status = Status.SUCCESS ∧
      (verifyMacosOutput binary strict 0 outM errM).dependencies = []) ∧
    (parseWindowsDeps outW = [] →
      (verifyWindowsOutput binary strict 0 outW).status = Status.SUCCESS ∧
      (verifyWindowsOutput binary strict 0 outW).dependencies = []) := by
  refine ⟨?_, ?_, ?_, ?_⟩
  · intro hm
    unfold verifyLinuxOutput
    simp [hm]
  · intro hp
    unfold verifyLinuxOutput
    by_cases hm : (strContains "not a dynamic executable" outL ||
        strContains "not a dynamic" outL) = true
    · simp [hm, fullyStaticLinuxResult]
    · simp only [hm, if_neg, Bool.not_eq_true, if_false]
      unfold evalLinux
      simp [hp]
  · intro hlen
    unfold verifyMacosOutput
    simp [hlen]
  · intro hp
    unfold verifyWindowsOutput evalWindows
    simp [hp]

/-- Witness for C4 at concrete zero-dependency tool outputs. -/
theorem C4_zero_dependencies_success_witness :
    verifyLinuxOutput "b" false "\tnot a dynamic executable" = fullyStaticLinuxResult "b" ∧
    (verifyMacosOutput "b" false 0 "/tmp/app:" "").status = Status.SUCCESS ∧
    (verifyWindowsOutput "b" false 0 "no dependency section here").status = Status.SUCCESS := by
  have h := C4_zero_dependencies_success "b" false "\tnot a dynamic executable"
    "/tmp/app:" "" "no dependency section here"
  exact ⟨h.1 (by decide), (h.2.2.1 (by decide)).1, (h.2.2.2 (by decide)).1⟩

/-- Collection loop of the amended Windows-parse claim once the marker has
been seen, written from the amended claim's words (to be compared with the
fold in `parseWindowsDeps`): marker lines are consumed, and of the remaining
stripped lines exactly the nonempty ones that do not begin with "Summary"
and end in ".dll" are recorded; a "Summary" line is skipped without
stopping the scan. -/
def winCollect : List String → List Dependency
  | [] => []
  | l :: ls =>
    if strContains winMarker (pyStrip l) then winCollect ls
    else if winKeeps (pyStrip l) then winDepOfLine (pyStrip l) :: winCollect ls
    else winCollect ls

/-- Spec shape of the amended Windows-parse claim: dependencies are
collected only from the lines after the first marker line. -/
def winScan : List String → List Dependency
  | [] => []
  | l :: ls => if strContains winMarker (pyStrip l) then winCollect ls else winScan ls

lemma winFold_inSection (ls : List String) (acc : List Dependency) :
    (ls.foldl winStep (true, acc)).2 = acc ++ winCollect ls := by
  induction ls generalizing acc with
  | nil => simp [winCollect]
  | cons l ls ih =>
    rw [List.foldl_cons]
    by_cases h1 : strContains winMarker (pyStrip l) = true
    · have hstep : winStep (true, acc) l = (true, acc) := by
        simp [winStep, h1]
      rw [hstep, ih]
      simp [winCollect, h1]
    · by_cases h2 : winKeeps (pyStrip l) = true
      · have hstep : winStep (true, acc) l = (true, acc ++ [winDepOfLine (pyStrip l)]) := by
          simp [winStep, h1, h2]
        rw [hstep, ih]
        simp [winCollect, h1, h2]
      · have hstep : winStep (true, acc) l = (true, acc) := by
          simp [winStep, h1, h2]
        rw [hstep, ih]
        simp [winCollect, h1, h2]

lemma winFold_preScan (ls : List String) :
    (ls.foldl winStep (false, [])).2 = winScan ls := by
  induction ls with
  | nil => rfl
  | cons l ls ih =>
    rw [List.foldl_cons]
    by_cases h1 : strContains winMarker (pyStrip l) = true
    · have hstep : winStep (false, []) l = (true, []) := by
        simp [winStep, h1]
      rw [hstep, winFold_inSection]
      simp [winScan, h1]
    · have hstep : winStep (false, []) l = (false, []) := by
        simp [winStep, h1]
      rw [hstep, ih]
      simp [winScan, h1]

/-- C5 (amended): the Windows dependency collection equals its spec: entries
come only from lines after the first marker line; a line beginning "Summary"
is itself skipped but does not terminate the scan (qualifying lines after it
are still recorded); of the scanned lines exactly those ending in ".dll" are
recorded. -/
theorem C5_amended_windows_parse (stdout : String) :
    parseWindowsDeps stdout = winScan (pySplitlines stdout) := by
  unfold parseWindowsDeps
  exact winFold_preScan _

lemma verifyMacos_strict_eq (binary : String) (rc : Int) (out err : String) (s s' : Bool) :
    verifyMacosOutput binary s rc out err = verifyMacosOutput binary s' rc out err := rfl

lemma verifyWindows_strict_eq (binary : String) (rc : Int) (out : String) (s s' : Bool) :
    verifyWindowsOutput binary s rc out = verifyWindowsOutput binary s' rc out := rfl

lemma linux_strict_relation (binary out : String) :
    verifyLinuxOutput binary true out = verifyLinuxOutput binary false out ∨
    ((verifyLinuxOutput binary false out).status = Status.SUCCESS ∧
      (verifyLinuxOutput binary true out).status = Status.WARNING) := by
  unfold verifyLinuxOutput
  by_cases h1 : (strContains "not a dynamic executable" out ||
      strContains "not a dynamic" out) = true
  · left
    simp [h1]
  · simp only [h1, if_false, Bool.not_eq_true]
    unfold evalLinux
    by_cases h2 : (parseLinuxDeps out).isEmpty = true
    · left
      simp [h2]
    · by_cases h3 : ((parseLinuxDeps out).filter (fun d => !d.is_system)).isEmpty = true
      · right
        simp [h2, h3]
      · left
        simp [h2, h3]

/-- C7: for every fixed platform and tool outcome, turning strict on never
produces ERROR where strict = false produced SUCCESS or WARNING, never
changes a result whose status is ERROR or WARNING, and the only status
change strict can cause is SUCCESS becoming WARNING. -/
theorem C7_strict_only_success_to_warning (plat binary : String) (rc : Int) (out err : String) :
    ((runPlatform plat binary true rc out err).status = Status.ERROR →
      (runPlatform plat binary false rc out err).status = Status.ERROR) ∧
    (((runPlatform plat binary false rc out err).status = Status.ERROR ∨
        (runPlatform plat binary false rc out err).status = Status.WARNING) →
      runPlatform plat binary true rc out err = runPlatform plat binary false rc out err) ∧
    ((runPlatform plat binary false rc out err).status ≠
        (runPlatform plat binary true rc out err).status →
      (runPlatform plat binary false rc out err).status = Status.SUCCESS ∧
      (runPlatform plat binary true rc out err).status = Status.WARNING) := by
  have key : runPlatform plat binary true rc out err = runPlatform plat binary false rc out err ∨
      ((runPlatform plat binary false rc out err).status = Status.SUCCESS ∧
        (runPlatform plat binary true rc out err).status = Status.WARNING) := by
    by_cases hL : plat = "Linux"
    · subst hL
      exact linux_strict_relation binary (out ++ err)
    · by_cases hD : plat = "Darwin"
      · subst hD
        left
        exact verifyMacos_strict_eq binary rc out err true false
      · by_cases hW : plat = "Windows"
        · subst hW
          left
          exact verifyWindows_strict_eq binary rc out true false
        · left
          unfold runPlatform
          rw [if_neg hL, if_neg hD, if_neg hW, if_neg hL, if_neg hD, if_neg hW]
  rcases key with heq | ⟨h0, h1⟩
  · refine ⟨?_, ?_, ?_⟩
    · intro hE
      rw [heq] at hE
      exact hE
    · intro _
      exact heq
    · intro hne
      rw [heq] at hne
      exact absurd rfl hne
  · refine ⟨?_, ?_, ?_⟩
    · intro hE
      rw [h1] at hE
      cases hE
    · intro hOr
      rcases hOr with hE | hW
      · rw [h0] at hE
        cases hE
      · rw [h0] at hW
        cases hW
    · intro _
      exact ⟨h0, h1⟩

/-- An ldd output with one non-system dependency, on which the verdict is
ERROR for both strict settings. -/
def c7LinuxOut : String := "\tlibfoo.so => /opt/libfoo.so (0x00007f)"

/-- Witness for C7: on an ERROR outcome the result is unchanged by strict. -/
theorem C7_strict_only_success_to_warning_witness :
    runPlatform "Linux" "b" true 0 c7LinuxOut "" = runPlatform "Linux" "b" false 0 c7LinuxOut "" :=
  (C7_strict_only_success_to_warning "Linux" "b" 0 c7LinuxOut "").2.1 (Or.inl (by decide))

/-- C10: on macOS, when some line after the first of the (stripped) otool
output is whitespace-only, the per-line parse does not skip it: taking the
first whitespace token fails and the run returns ERROR with a message
beginning "Error running otool", via the catch-all handler. -/
theorem C10_whitespace_line_error (binary : String) (strict : Bool) (stdout stderr : String)
    (h : ∃ l ∈ (pySplitlines (pyStrip stdout)).drop 1, l.data.all isWs = true) :
    (verifyMacosOutput binary strict 0 stdout stderr).status = Status.ERROR ∧
    pyStartsWith "Error running otool"
      (verifyMacosOutput binary strict 0 stdout stderr).message = true := by
  obtain ⟨l, hl, hws⟩ := h
  have hlen : ¬((pySplitlines (pyStrip stdout)).length ≤ 1) := by
    intro hle
    have hnil : (pySplitlines (pyStrip stdout)).drop 1 = [] := List.drop_eq_nil_iff.mpr hle
    rw [hnil] at hl
    cases hl
  have hdw : l.data.dropWhile isWs = [] := by
    rw [List.dropWhile_eq_nil_iff]
    intro x hx
    exact List.all_eq_true.mp hws x hx
  have hstrip : pyStripList l.data = [] := by
    unfold pyStripList
    rw [hdw]
    rfl
  have htok : macosLineToken l = none := by
    unfold macosLineToken pySplitWs pyStrip
    rw [hstrip]
    rfl
  have hmap : mapOpt macosLineToken ((pySplitlines (pyStrip stdout)).tail) = none := by
    rw [← List.drop_one]
    exact mapOpt_eq_none _ hl htok
  unfold verifyMacosOutput
  simp [hlen, hmap]
  decide

/-- An otool output whose second line is whitespace-only. -/
def c10MacosOut : String := "/tmp/app:\n \n\t/usr/lib/libSystem.B.dylib (c)"

/-- Witness for C10 at a concrete otool output with a whitespace-only
second line. -/
theorem C10_whitespace_line_error_witness :
    (verifyMacosOutput "b" false 0 c10MacosOut "").status = Status.ERROR ∧
    pyStartsWith "Error running otool"
      (verifyMacosOutput "b" false 0 c10MacosOut "").message = true :=
  C10_whitespace_line_error "b" false c10MacosOut "" (by decide)

end StaticLinking
